import Mathlib

/-!
Verification of the lease-calculator core (src/app.py) against its
natural-language specification.  The two computation components are embedded
shallowly over the rationals: Python's exact arithmetic on the inputs the
claims quantify over is modelled by `ℚ`, and a Python `ZeroDivisionError` is
modelled by `Option.none` (every division in the source whose denominator can
be zero is guarded and returns `none` exactly when Python would raise).
Monetary values that the source formats as display strings ("LKR …") are kept
as their underlying numeric values; the formatting is presentation only.
-/

namespace LeaseCalc

/-- One row of the declining-balance payment schedule.  Mirrors the dict
appended in `calculate_declining_balance_payments` (src/app.py lines 62-69);
the source stores formatted strings, we keep the numeric values. -/
structure ScheduleEntry where
  month : ℕ
  payment : ℚ
  principal : ℚ
  interest : ℚ
  balance : ℚ
  lakhs_remaining : ℚ
deriving DecidableEq, Repr

/-- The result dictionary of `calculate_declining_balance_payments`
(src/app.py lines 75-80). -/
structure DecliningBalanceResult where
  total_payments : ℚ
  total_interest : ℚ
  payment_schedule : List ScheduleEntry
  months_to_payoff : ℕ
deriving DecidableEq, Repr

/-- `calculate_monthly_payment` (src/app.py lines 5-24).  `none` models the
Python `ZeroDivisionError` raised when a denominator is zero: `total_months`
in the zero-rate branch, `(1 + monthly_rate)^total_months - 1` in the
annuity branch. -/
def calculate_monthly_payment (principal annual_rate : ℚ) (years : ℕ) : Option ℚ :=
  let monthly_rate := annual_rate / 12
  let total_months := years * 12
  if monthly_rate = 0 then
    if (total_months : ℚ) = 0 then none
    else some (principal / (total_months : ℚ))
  else
    let denom := (1 + monthly_rate) ^ total_months - 1
    if denom = 0 then none
    else some (principal * (monthly_rate * (1 + monthly_rate) ^ total_months) / denom)

/-- The loop body of `calculate_declining_balance_payments` (src/app.py
lines 49-73): iterates over the remaining months (the fuel argument),
breaking as soon as the updated balance is `≤ 0`; returns the accumulated
`total_payments`, `total_interest` and the schedule produced. -/
def db_loop (mpp rate : ℚ) : ℕ → ℕ → ℚ → ℚ → ℚ → ℚ × ℚ × List ScheduleEntry
  | _, 0, _, tp, ti => (tp, ti, [])
  | month, n + 1, bal, tp, ti =>
    let lakhs := bal / 100000
    let interest := lakhs * rate
    let payment := mpp + interest
    let bal2 := bal - mpp
    let tp2 := tp + payment
    let ti2 := ti + interest
    let entry : ScheduleEntry :=
      { month := month, payment := payment, principal := mpp,
        interest := interest, balance := bal2, lakhs_remaining := lakhs }
    if bal2 ≤ 0 then (tp2, ti2, [entry])
    else
      let rest := db_loop mpp rate (month + 1) n bal2 tp2 ti2
      (rest.1, rest.2.1, entry :: rest.2.2)

/-- `calculate_declining_balance_payments` (src/app.py lines 26-80).  `none`
models the `ZeroDivisionError` of `principal / total_months` when
`total_months = 0`. -/
def calculate_declining_balance_payments (principal rate_per_lakh_per_month : ℚ)
    (years : ℕ) : Option DecliningBalanceResult :=
  let total_months := years * 12
  if total_months = 0 then none
  else
    let monthly_principal_payment := principal / (total_months : ℚ)
    let r := db_loop monthly_principal_payment rate_per_lakh_per_month 1 total_months
      principal 0 0
    some { total_payments := r.1, total_interest := r.2.1,
           payment_schedule := r.2.2, months_to_payoff := r.2.2.length }

/-- One row of the fixed-rate schedule preview built in `main`
(src/app.py lines 180-186). -/
structure FixedScheduleEntry where
  month : ℕ
  payment : ℚ
  principal : ℚ
  interest : ℚ
  balance : ℚ
deriving DecidableEq, Repr

/-- The body of the fixed-rate schedule loop in `main` (src/app.py
lines 175-186), generalised over the number of iterations (the source runs it
for `range(1, 13)`, i.e. exactly 12 iterations). -/
def fixed_schedule_go (monthly_payment monthly_rate : ℚ) :
    ℕ → ℚ → ℕ → List FixedScheduleEntry
  | _, _, 0 => []
  | month, bal, n + 1 =>
    let interest_payment := bal * monthly_rate
    let principal_payment := monthly_payment - interest_payment
    let bal2 := bal - principal_payment
    { month := month, payment := monthly_payment, principal := principal_payment,
      interest := interest_payment, balance := bal2 } ::
      fixed_schedule_go monthly_payment monthly_rate (month + 1) bal2 n

/-- `schedule_data` as `main` computes it for the fixed-rate branch
(src/app.py lines 171-186): starting from `remaining_balance = lease_amount`
and `monthly_rate = annual_rate_decimal / 12`, the loop runs for
`range(1, 13)` — exactly 12 iterations, regardless of the lease duration. -/
def fixed_schedule_data (lease_amount annual_rate_decimal monthly_payment : ℚ) :
    List FixedScheduleEntry :=
  fixed_schedule_go monthly_payment (annual_rate_decimal / 12) 1 lease_amount 12

/-- Modelled from the spec: the full-term fixed-rate schedule expansion
("Produces one `ScheduleEntry` per month for the full term"), i.e. the same
month-by-month walk as the source's preview loop but run for
`years * 12` months.  The source itself only ever computes the first 12
months (src/app.py line 175). -/
def fixed_full_schedule (lease_amount annual_rate_decimal monthly_payment : ℚ)
    (years : ℕ) : List FixedScheduleEntry :=
  fixed_schedule_go monthly_payment (annual_rate_decimal / 12) 1 lease_amount (years * 12)

/-- `total_payments` for the fixed-rate branch of `main`
(src/app.py line 158). -/
def fixed_total_payments (monthly_payment : ℚ) (years : ℕ) : ℚ :=
  monthly_payment * (years : ℚ) * 12

/-- `total_interest` for the fixed-rate branch of `main`
(src/app.py line 159). -/
def fixed_total_interest (monthly_payment : ℚ) (years : ℕ) (lease_amount : ℚ) : ℚ :=
  fixed_total_payments monthly_payment years - lease_amount

/-- Balance after `n` steps of the fixed-rate schedule recurrence
(src/app.py lines 176-178): each month the balance is reduced by
`monthly_payment - balance * monthly_rate`. -/
def balAfter (mp r : ℚ) : ℚ → ℕ → ℚ
  | b, 0 => b
  | b, n + 1 => balAfter mp r (b - (mp - b * r)) n

/-- The annuity denominator is nonzero for a positive monthly rate and a
nonzero number of months. -/
theorem annuity_denom_ne_zero {mr : ℚ} (hmr : 0 < mr) {n : ℕ} (hn : n ≠ 0) :
    (1 + mr) ^ n - 1 ≠ 0 :=
  sub_ne_zero_of_ne (ne_of_gt (one_lt_pow₀ (by linarith) hn))

/-- Claim C1: for principal ≥ 0, a positive annual rate (as a fraction) and an
integer term of at least one year, `calculate_monthly_payment` returns the
standard annuity payment
`principal * monthlyRate * (1 + monthlyRate)^totalMonths /
((1 + monthlyRate)^totalMonths - 1)`
with `monthlyRate = annualRate / 12` and `totalMonths = years * 12`. -/
theorem calculate_monthly_payment_pos_rate (principal annual_rate : ℚ) (years : ℕ)
    (hp : 0 ≤ principal) (hr : 0 < annual_rate) (hy : 1 ≤ years) :
    calculate_monthly_payment principal annual_rate years =
      some (principal * (annual_rate / 12) * (1 + annual_rate / 12) ^ (years * 12) /
        ((1 + annual_rate / 12) ^ (years * 12) - 1)) := by
  have hmr : (0 : ℚ) < annual_rate / 12 := by positivity
  have hn : years * 12 ≠ 0 := by omega
  have hd := annuity_denom_ne_zero hmr hn
  simp only [calculate_monthly_payment]
  rw [if_neg (ne_of_gt hmr), if_neg hd]
  congr 1
  ring

/-- Witness for C1 at principal 2,000,000, rate 11 %, term 5 years. -/
theorem calculate_monthly_payment_pos_rate_witness :
    (0 : ℚ) ≤ 2000000 ∧ (0 : ℚ) < 11 / 100 ∧ 1 ≤ 5 ∧
      calculate_monthly_payment 2000000 (11 / 100) 5 =
        some (2000000 * (11 / 100 / 12) * (1 + 11 / 100 / 12) ^ (5 * 12) /
          ((1 + 11 / 100 / 12) ^ (5 * 12) - 1)) :=
  ⟨by norm_num, by norm_num, by norm_num,
    calculate_monthly_payment_pos_rate 2000000 (11 / 100) 5 (by norm_num) (by norm_num)
      (by norm_num)⟩

/-- Claim C6: with a zero annual rate the payment is the simple equal split
`principal / (years * 12)`. -/
theorem calculate_monthly_payment_zero_rate (principal : ℚ) (years : ℕ)
    (hp : 0 < principal) (hy : 1 ≤ years) :
    calculate_monthly_payment principal 0 years =
      some (principal / ((years : ℚ) * 12)) := by
  have htm : ((years * 12 : ℕ) : ℚ) ≠ 0 := by
    exact_mod_cast (by omega : years * 12 ≠ 0)
  simp only [calculate_monthly_payment]
  rw [if_pos (by norm_num), if_neg htm]
  congr 1
  push_cast
  ring

/-- Witness for C6 at principal 2,000,000 over 5 years. -/
theorem calculate_monthly_payment_zero_rate_witness :
    (0 : ℚ) < 2000000 ∧ 1 ≤ 5 ∧
      calculate_monthly_payment 2000000 0 5 = some (2000000 / ((5 : ℚ) * 12)) :=
  ⟨by norm_num, by norm_num,
    calculate_monthly_payment_zero_rate 2000000 5 (by norm_num) (by norm_num)⟩

/-- Claim C8: the core performs no validation: with `years = 0` both branches
of `calculate_monthly_payment` hit a zero denominator (`total_months` in the
zero-rate branch, `(1 + monthlyRate)^0 - 1 = 0` in the annuity branch), i.e.
the call fails with the division-by-zero fault modelled by `none`. -/
theorem calculate_monthly_payment_years_zero_fault (principal annual_rate : ℚ)
    (hr : 0 ≤ annual_rate) :
    calculate_monthly_payment principal annual_rate 0 = none := by
  by_cases h : annual_rate / 12 = 0
  · simp [calculate_monthly_payment, h]
  · simp [calculate_monthly_payment, h]

/-- Witness for C8 at principal 5, rate 11 %. -/
theorem calculate_monthly_payment_years_zero_fault_witness :
    (0 : ℚ) ≤ 11 / 100 ∧ calculate_monthly_payment 5 (11 / 100) 0 = none :=
  ⟨by norm_num, calculate_monthly_payment_years_zero_fault 5 (11 / 100) (by norm_num)⟩

/-- With zero principal the fixed-rate payment is 0, not an error. -/
theorem monthly_payment_zero_principal (annual_rate : ℚ) (years : ℕ)
    (hr : 0 ≤ annual_rate) (hy : 1 ≤ years) :
    calculate_monthly_payment 0 annual_rate years = some 0 := by
  rcases eq_or_lt_of_le hr with h0 | hpos
  · simp only [calculate_monthly_payment, ← h0]
    rw [if_pos (by norm_num)]
    rw [if_neg (by exact_mod_cast (by omega : years * 12 ≠ 0))]
    simp
  · have hmr : (0 : ℚ) < annual_rate / 12 := by positivity
    have hd := annuity_denom_ne_zero hmr (show years * 12 ≠ 0 by omega)
    simp [calculate_monthly_payment, ne_of_gt hmr, hd]

/-- With zero principal the declining-balance computation succeeds and stops
after one month: the principal payment and the interest are both 0, so the
balance is already `≤ 0` after the first iteration and the loop breaks. -/
theorem declining_zero_principal_eq (rate : ℚ) (years : ℕ) (hy : 1 ≤ years) :
    calculate_declining_balance_payments 0 rate years =
      some { total_payments := 0, total_interest := 0,
             payment_schedule := [{ month := 1, payment := 0, principal := 0, interest := 0, balance := 0, lakhs_remaining := 0 }],
             months_to_payoff := 1 } := by
  have htm : years * 12 ≠ 0 := by omega
  obtain ⟨k, hk⟩ := Nat.exists_eq_succ_of_ne_zero htm
  simp [calculate_declining_balance_payments, htm, hk, db_loop]

/-- Claim C10: with principal 0 the declining-balance model returns a result
with a single all-zero schedule entry, `monthsToPayoff = 1`, and zero totals:
the defensive early-exit guard fires after the first iteration. -/
theorem declining_zero_principal_result (rate : ℚ) (years : ℕ)
    (hr : 0 ≤ rate) (hy : 1 ≤ years) :
    calculate_declining_balance_payments 0 rate years =
      some { total_payments := 0, total_interest := 0,
             payment_schedule := [{ month := 1, payment := 0, principal := 0, interest := 0, balance := 0, lakhs_remaining := 0 }],
             months_to_payoff := 1 } :=
  declining_zero_principal_eq rate years hy

/-- Witness for C10 at rate 1080, term 5 years. -/
theorem declining_zero_principal_result_witness :
    (0 : ℚ) ≤ 1080 ∧ 1 ≤ 5 ∧
      calculate_declining_balance_payments 0 1080 5 =
        some { total_payments := 0, total_interest := 0,
               payment_schedule := [{ month := 1, payment := 0, principal := 0, interest := 0, balance := 0, lakhs_remaining := 0 }],
               months_to_payoff := 1 } :=
  ⟨by norm_num, by norm_num,
    declining_zero_principal_result 1080 5 (by norm_num) (by norm_num)⟩

/-- Counterexample to claim C9: with principal 0 neither model rejects the
call — the fixed-rate model silently returns a payment of 0 and the
declining-balance model returns a result (no error). -/
theorem principal_zero_not_rejected_cex :
    calculate_monthly_payment 0 (11 / 100) 5 = some 0 ∧
      (calculate_declining_balance_payments 0 1080 5).isSome = true := by
  refine ⟨monthly_payment_zero_principal (11 / 100) 5 (by norm_num) (by norm_num), ?_⟩
  rw [declining_zero_principal_eq 1080 5 (by norm_num)]
  rfl

/-- Claim C9 (amended): with principal 0 neither model raises an error: the
fixed-rate model returns the payment 0 and the declining-balance model returns
a one-entry result with zero totals. -/
theorem principal_zero_returns_zero_payment (r_fixed r_db : ℚ) (years : ℕ)
    (hrf : 0 ≤ r_fixed) (hy : 1 ≤ years) :
    calculate_monthly_payment 0 r_fixed years = some 0 ∧
      calculate_declining_balance_payments 0 r_db years =
        some { total_payments := 0, total_interest := 0,
               payment_schedule := [{ month := 1, payment := 0, principal := 0, interest := 0, balance := 0, lakhs_remaining := 0 }],
               months_to_payoff := 1 } :=
  ⟨monthly_payment_zero_principal r_fixed years hrf hy,
    declining_zero_principal_eq r_db years hy⟩

/-- Witness for the amended C9 at rates 11 % and 1080, term 5 years. -/
theorem principal_zero_returns_zero_payment_witness :
    (0 : ℚ) ≤ 11 / 100 ∧ 1 ≤ 5 ∧
      (calculate_monthly_payment 0 (11 / 100) 5 = some 0 ∧
        calculate_declining_balance_payments 0 1080 5 =
          some { total_payments := 0, total_interest := 0,
                 payment_schedule := [{ month := 1, payment := 0, principal := 0, interest := 0, balance := 0, lakhs_remaining := 0 }],
                 months_to_payoff := 1 }) :=
  ⟨by norm_num, by norm_num,
    principal_zero_returns_zero_payment (11 / 100) 1080 5 (by norm_num) (by norm_num)⟩

/-- The fixed-rate schedule loop produces exactly as many rows as it is given
iterations. -/
theorem fixed_schedule_go_length (mp r : ℚ) :
    ∀ (n m : ℕ) (b : ℚ), (fixed_schedule_go mp r m b n).length = n := by
  intro n
  induction n with
  | zero => intro m b; rfl
  | succ k ih => intro m b; simp [fixed_schedule_go, ih]

/-- Counterexample to claim C2: for a valid 2-year fixed-rate input the
schedule `main` computes has 12 rows, not `years * 12 = 24` — the source
builds only the first-12-months preview, never the full-term schedule. -/
theorem fixed_schedule_preview_len_ne_full_term :
    (fixed_schedule_data 2000000 (11 / 100)
        ((calculate_monthly_payment 2000000 (11 / 100) 2).getD 0)).length ≠ 2 * 12 := by
  rw [fixed_schedule_data, fixed_schedule_go_length]
  omega

/-- Claim C2 (amended): the fixed-rate schedule expansion in `main` computes
exactly 12 rows (months 1–12) regardless of the lease duration; the full-term
schedule is never computed, so the 12-row preview is not a display-side
truncation of a longer computed schedule. -/
theorem fixed_schedule_data_length_twelve
    (lease_amount annual_rate_decimal monthly_payment : ℚ) :
    (fixed_schedule_data lease_amount annual_rate_decimal monthly_payment).length = 12 := by
  rw [fixed_schedule_data, fixed_schedule_go_length]

/-- The first schedule row built by a run of the loop with at least one month
of fuel: month index `m`, interest `bal / 100000 * rate`, payment
`mpp + interest`, balance reduced by `mpp`. -/
theorem db_loop_head (mpp rate : ℚ) (m n : ℕ) (b tp ti : ℚ) :
    ((db_loop mpp rate m (n + 1) b tp ti).2.2).head? =
      some { month := m, payment := mpp + b / 100000 * rate, principal := mpp,
             interest := b / 100000 * rate, balance := b - mpp,
             lakhs_remaining := b / 100000 } := by
  simp only [db_loop]
  split
  · rfl
  · rfl

/-- With a positive monthly principal payment and a starting balance of
exactly `n` payments, the loop runs all `n` months: the early-exit guard fires
only on the final iteration, after that month's row is appended. -/
theorem db_loop_length (mpp rate : ℚ) (hm : 0 < mpp) :
    ∀ (n m : ℕ) (b tp ti : ℚ), b = (n : ℚ) * mpp → 1 ≤ n →
      (db_loop mpp rate m n b tp ti).2.2.length = n := by
  intro n
  induction n with
  | zero => intro m b tp ti hb hn; omega
  | succ k ih =>
    intro m b tp ti hb hn
    by_cases hk : k = 0
    · subst hk
      have h2 : b - mpp ≤ 0 := by rw [hb]; norm_num
      simp only [db_loop]
      rw [if_pos h2]
      rfl
    · have hkpos : (0 : ℚ) < (k : ℚ) := by exact_mod_cast Nat.pos_of_ne_zero hk
      have h2 : b - mpp = (k : ℚ) * mpp := by rw [hb]; push_cast; ring
      have h3 : ¬(b - mpp ≤ 0) := not_le.mpr (h2 ▸ mul_pos hkpos hm)
      simp only [db_loop]
      rw [if_neg h3]
      simp only [List.length_cons]
      rw [ih _ _ _ _ h2 (Nat.one_le_iff_ne_zero.mpr hk)]

/-- The accumulated `total_payments` equals its initial value plus the sum of
the `payment` fields of the rows the loop produces. -/
theorem db_loop_fst (mpp rate : ℚ) :
    ∀ (n m : ℕ) (b tp ti : ℚ),
      (db_loop mpp rate m n b tp ti).1 =
        tp + (((db_loop mpp rate m n b tp ti).2.2).map (fun e => e.payment)).sum := by
  intro n
  induction n with
  | zero => intro m b tp ti; simp [db_loop]
  | succ k ih =>
    intro m b tp ti
    simp only [db_loop]
    split
    · simp
    · simp only [List.map_cons, List.sum_cons]
      rw [ih]
      ring

/-- The accumulated `total_interest` equals its initial value plus the sum of
the `interest` fields of the rows the loop produces. -/
theorem db_loop_snd (mpp rate : ℚ) :
    ∀ (n m : ℕ) (b tp ti : ℚ),
      (db_loop mpp rate m n b tp ti).2.1 =
        ti + (((db_loop mpp rate m n b tp ti).2.2).map (fun e => e.interest)).sum := by
  intro n
  induction n with
  | zero => intro m b tp ti; simp [db_loop]
  | succ k ih =>
    intro m b tp ti
    simp only [db_loop]
    split
    · simp
    · simp only [List.map_cons, List.sum_cons]
      rw [ih]
      ring

/-- Every row's payment is the monthly principal payment plus its interest, so
the payment sum exceeds the interest sum by `rows * mpp`. -/
theorem db_loop_pay_sum (mpp rate : ℚ) :
    ∀ (n m : ℕ) (b tp ti : ℚ),
      (((db_loop mpp rate m n b tp ti).2.2).map (fun e => e.payment)).sum =
        (((db_loop mpp rate m n b tp ti).2.2).map (fun e => e.interest)).sum +
          ((db_loop mpp rate m n b tp ti).2.2.length : ℚ) * mpp := by
  intro n
  induction n with
  | zero => intro m b tp ti; simp [db_loop]
  | succ k ih =>
    intro m b tp ti
    simp only [db_loop]
    split
    · simp
      ring
    · simp only [List.map_cons, List.sum_cons, List.length_cons]
      rw [ih]
      push_cast
      ring

/-- The payments produced by the loop are non-increasing: the balance only
ever shrinks (by `mpp ≥ 0`) and the charge is proportional to it. -/
theorem db_loop_chain (mpp rate : ℚ) (hm : 0 ≤ mpp) (hr : 0 ≤ rate) :
    ∀ (n m : ℕ) (b tp ti : ℚ),
      List.Chain' (fun a e => e.payment ≤ a.payment)
        (db_loop mpp rate m n b tp ti).2.2 := by
  intro n
  induction n with
  | zero => intro m b tp ti; simp [db_loop]
  | succ k ih =>
    intro m b tp ti
    simp only [db_loop]
    split
    · simp
    · rw [List.chain'_cons']
      refine ⟨?_, ih _ _ _ _⟩
      intro y hy
      cases k with
      | zero => simp [db_loop] at hy
      | succ j =>
        rw [db_loop_head] at hy
        simp only [Option.mem_def, Option.some.injEq] at hy
        subst hy
        simp only
        have hb : (b - mpp) / 100000 ≤ b / 100000 :=
          (div_le_div_iff_of_pos_right (by norm_num)).mpr (by linarith)
        have := mul_le_mul_of_nonneg_right hb hr
        linarith

/-- Claim C4: for every valid declining-balance input, consecutive schedule
rows have non-increasing payments (`payment[i] ≥ payment[i+1]`). -/
theorem declining_payments_antitone (principal rate : ℚ) (years : ℕ)
    (hp : 0 ≤ principal) (hr : 0 ≤ rate) (hy : 1 ≤ years) :
    ∀ res, calculate_declining_balance_payments principal rate years = some res →
      List.Chain' (fun a e => e.payment ≤ a.payment) res.payment_schedule := by
  intro res hres
  have htm : years * 12 ≠ 0 := by omega
  simp only [calculate_declining_balance_payments, if_neg htm, Option.some.injEq] at hres
  subst hres
  exact db_loop_chain _ _ (div_nonneg hp (by positivity)) hr _ _ _ _ _

/-- Witness for C4 at principal 0, rate 1080, term 5 years (one-row schedule). -/
theorem declining_payments_antitone_witness :
    List.Chain' (fun (a e : ScheduleEntry) => e.payment ≤ a.payment)
      (DecliningBalanceResult.payment_schedule
        { total_payments := 0, total_interest := 0,
          payment_schedule := [{ month := 1, payment := 0, principal := 0, interest := 0, balance := 0, lakhs_remaining := 0 }],
          months_to_payoff := 1 }) :=
  declining_payments_antitone 0 1080 5 (by norm_num) (by norm_num) (by norm_num) _
    (declining_zero_principal_eq 1080 5 (by norm_num))

/-- Claim C5: for positive principal the declining-balance loop runs the full
term — `monthsToPayoff = years * 12`; the early-exit guard fires only at the
final month. -/
theorem declining_months_to_payoff_full_term (principal rate : ℚ) (years : ℕ)
    (hp : 0 < principal) (hr : 0 ≤ rate) (hy : 1 ≤ years) :
    (calculate_declining_balance_payments principal rate years).map
      (fun res => res.months_to_payoff) = some (years * 12) := by
  have htm : years * 12 ≠ 0 := by omega
  have htmq : (0 : ℚ) < ((years * 12 : ℕ) : ℚ) := by
    exact_mod_cast Nat.pos_of_ne_zero htm
  simp only [calculate_declining_balance_payments, if_neg htm, Option.map_some']
  congr 1
  exact db_loop_length _ rate (div_pos hp htmq) _ _ _ _ _
    (by field_simp) (by omega)

/-- Witness for C5 at principal 2,000,000, rate 1080, term 5 years. -/
theorem declining_months_to_payoff_full_term_witness :
    (calculate_declining_balance_payments 2000000 1080 5).map
      (fun res => res.months_to_payoff) = some 60 := by
  simpa using declining_months_to_payoff_full_term 2000000 1080 5 (by norm_num)
    (by norm_num) (by norm_num)

/-- Claim C7: for principal 2,000,000, rate 1080 per lakh per month, term
5 years: `monthsToPayoff = 60`, the monthly principal payment is `100000/3`
(within 0.01 of 33,333.33), the first month's interest is exactly 21,600, and
the first month's payment `100000/3 + 21600` is within 0.01 of 54,933.33. -/
theorem declining_concrete_scenario :
    (calculate_declining_balance_payments 2000000 1080 5).map
        (fun res => (res.months_to_payoff,
          res.payment_schedule.head?.map (fun e => (e.principal, e.interest, e.payment)))) =
      some (60, some (100000 / 3, 21600, 100000 / 3 + 21600)) ∧
      |(100000 / 3 : ℚ) - 33333.33| ≤ 1 / 100 ∧
      |(100000 / 3 + 21600 : ℚ) - 54933.33| ≤ 1 / 100 := by
  refine ⟨?_, by rw [abs_sub_le_iff]; norm_num, by rw [abs_sub_le_iff]; norm_num⟩
  have hmpp : (2000000 : ℚ) / ((5 * 12 : ℕ) : ℚ) = 100000 / 3 := by norm_num
  have hlen : (db_loop ((2000000 : ℚ) / ((5 * 12 : ℕ) : ℚ)) 1080 1 (5 * 12)
      2000000 0 0).2.2.length = 5 * 12 :=
    db_loop_length _ 1080 (by rw [hmpp]; norm_num) _ _ _ _ _ (by norm_num) (by norm_num)
  have hhead := db_loop_head ((2000000 : ℚ) / ((5 * 12 : ℕ) : ℚ)) 1080 1 59 2000000 0 0
  simp only [calculate_declining_balance_payments, if_neg (by norm_num : ¬(5 * 12 = 0)),
    Option.map_some']
  rw [show (5 * 12 : ℕ) = 59 + 1 from rfl] at hlen ⊢
  rw [hlen, hhead, hmpp]
  norm_num

/-- The fixed payment is constant, so the payment column of any run of the
fixed-rate schedule loop sums to `rows * payment`. -/
theorem fixed_schedule_go_pay_sum (mp r : ℚ) :
    ∀ (n m : ℕ) (b : ℚ),
      ((fixed_schedule_go mp r m b n).map (fun e => e.payment)).sum = (n : ℚ) * mp := by
  intro n
  induction n with
  | zero => intro m b; simp [fixed_schedule_go]
  | succ k ih =>
    intro m b
    simp only [fixed_schedule_go, List.map_cons, List.sum_cons]
    rw [ih]
    push_cast
    ring

/-- The interest column of a run of the fixed-rate schedule loop sums to the
total paid minus the principal actually amortised (initial balance minus the
balance left after the run). -/
theorem fixed_schedule_go_interest_sum (mp r : ℚ) :
    ∀ (n m : ℕ) (b : ℚ),
      ((fixed_schedule_go mp r m b n).map (fun e => e.interest)).sum =
        (n : ℚ) * mp - (b - balAfter mp r b n) := by
  intro n
  induction n with
  | zero => intro m b; simp [fixed_schedule_go, balAfter]
  | succ k ih =>
    intro m b
    simp only [fixed_schedule_go, List.map_cons, List.sum_cons, balAfter]
    rw [ih]
    push_cast
    ring

/-- Closed form of the fixed-rate balance recurrence. -/
theorem balAfter_eq (mp r : ℚ) :
    ∀ (n : ℕ) (b : ℚ),
      balAfter mp r b n =
        (1 + r) ^ n * b - mp * ((Finset.range n).sum (fun i => (1 + r) ^ i)) := by
  intro n
  induction n with
  | zero => intro b; simp [balAfter]
  | succ k ih =>
    intro b
    simp only [balAfter]
    rw [ih, Finset.sum_range_succ]
    ring

/-- The annuity payment drives the balance to exactly zero after `n` months
(exact arithmetic). -/
theorem balAfter_annuity_zero (p mr : ℚ) (n : ℕ) (hmr : mr ≠ 0)
    (hd : (1 + mr) ^ n - 1 ≠ 0) :
    balAfter (p * (mr * (1 + mr) ^ n) / ((1 + mr) ^ n - 1)) mr p n = 0 := by
  have hne : (1 + mr) ≠ 1 := fun h => hmr (by linarith)
  rw [balAfter_eq, geom_sum_eq hne n]
  have h1 : (1 + mr) - 1 = mr := by ring
  rw [h1]
  field_simp
  ring

/-- The equal-split payment at zero rate also clears the balance exactly. -/
theorem balAfter_equal_split_zero (p : ℚ) (n : ℕ) (hn : ((n : ℕ) : ℚ) ≠ 0) :
    balAfter (p / (n : ℚ)) 0 p n = 0 := by
  rw [balAfter_eq]
  simp only [add_zero, one_pow, one_mul, Finset.sum_const, Finset.card_range,
    nsmul_eq_mul, mul_one]
  field_simp

/-- Aggregate identities for the fixed-rate model, given that the payment
clears the balance over the full term. -/
theorem fixed_totals_of_balAfter (p r mp : ℚ) (years : ℕ)
    (hbal : balAfter mp (r / 12) p (years * 12) = 0) :
    fixed_total_payments mp years =
      (((fixed_full_schedule p r mp years).map (fun e => e.payment)).sum) ∧
    fixed_total_interest mp years p =
      (((fixed_full_schedule p r mp years).map (fun e => e.interest)).sum) ∧
    fixed_total_payments mp years - fixed_total_interest mp years p = p := by
  refine ⟨?_, ?_, ?_⟩
  · rw [fixed_full_schedule, fixed_schedule_go_pay_sum, fixed_total_payments]
    push_cast
    ring
  · rw [fixed_full_schedule, fixed_schedule_go_interest_sum, hbal,
      fixed_total_interest, fixed_total_payments]
    push_cast
    ring
  · rw [fixed_total_interest]
    ring

/-- Claim C3: for every valid input, the aggregates of both models match the
full schedule: `totalPaid` is the sum of the payment column, `totalInterest`
the sum of the interest column, and their difference is exactly the
principal.  (For the fixed-rate model the full-term schedule is the
spec-modelled `fixed_full_schedule`; the source computes only its first 12
rows.) -/
theorem totals_match_schedule_sums (p r_db r_fixed : ℚ) (years : ℕ)
    (hp : 0 ≤ p) (hrdb : 0 ≤ r_db) (hrf : 0 ≤ r_fixed) (hy : 1 ≤ years) :
    (∀ res, calculate_declining_balance_payments p r_db years = some res →
      res.total_payments = ((res.payment_schedule.map (fun e => e.payment)).sum) ∧
      res.total_interest = ((res.payment_schedule.map (fun e => e.interest)).sum) ∧
      res.total_payments - res.total_interest = p) ∧
    (∀ mp, calculate_monthly_payment p r_fixed years = some mp →
      fixed_total_payments mp years =
        (((fixed_full_schedule p r_fixed mp years).map (fun e => e.payment)).sum) ∧
      fixed_total_interest mp years p =
        (((fixed_full_schedule p r_fixed mp years).map (fun e => e.interest)).sum) ∧
      fixed_total_payments mp years - fixed_total_interest mp years p = p) := by
  have htm : years * 12 ≠ 0 := by omega
  have htmq : (0 : ℚ) < ((years * 12 : ℕ) : ℚ) := by exact_mod_cast Nat.pos_of_ne_zero htm
  constructor
  · intro res hres
    simp only [calculate_declining_balance_payments, if_neg htm, Option.some.injEq] at hres
    subst hres
    have h1 := db_loop_fst (p / ((years * 12 : ℕ) : ℚ)) r_db (years * 12) 1 p 0 0
    have h2 := db_loop_snd (p / ((years * 12 : ℕ) : ℚ)) r_db (years * 12) 1 p 0 0
    have h3 := db_loop_pay_sum (p / ((years * 12 : ℕ) : ℚ)) r_db (years * 12) 1 p 0 0
    refine ⟨by simpa using h1, by simpa using h2, ?_⟩
    show (db_loop _ _ _ _ _ _ _).1 - (db_loop _ _ _ _ _ _ _).2.1 = p
    rw [h1, h2, h3]
    have hc : ∀ x y : ℚ, 0 + (x + y) - (0 + x) = y := fun x y => by ring
    rw [hc]
    rcases eq_or_lt_of_le hp with h0 | hppos
    · rw [← h0]
      simp
    · rw [db_loop_length (p / ((years * 12 : ℕ) : ℚ)) r_db (div_pos hppos htmq)
        (years * 12) 1 p 0 0 (by field_simp) (by omega)]
      field_simp
  · intro mp hmp
    by_cases h0 : r_fixed / 12 = 0
    · have h00 : r_fixed = 0 := by
        have := h0
        field_simp at this
        exact this
      simp only [calculate_monthly_payment, if_pos h0, if_neg (ne_of_gt htmq),
        Option.some.injEq] at hmp
      subst hmp
      apply fixed_totals_of_balAfter
      rw [h00, zero_div]
      exact balAfter_equal_split_zero p (years * 12) (ne_of_gt htmq)
    · have hne0 : r_fixed ≠ 0 := fun h => h0 (by rw [h]; norm_num)
      have hrpos : 0 < r_fixed / 12 := by
        have : 0 < r_fixed := lt_of_le_of_ne hrf (Ne.symm hne0)
        positivity
      have hd := annuity_denom_ne_zero hrpos htm
      simp only [calculate_monthly_payment, if_neg h0, if_neg hd,
        Option.some.injEq] at hmp
      subst hmp
      exact fixed_totals_of_balAfter p r_fixed _ years
        (balAfter_annuity_zero p (r_fixed / 12) (years * 12) (ne_of_gt hrpos) hd)

/-- Witness for C3 at principal 0, declining rate 1080, fixed rate 0, term
5 years: the one-row declining schedule and the zero fixed payment. -/
theorem totals_match_schedule_sums_witness :
    ((0 : ℚ) =
        (([{ month := 1, payment := 0, principal := 0, interest := 0, balance := 0, lakhs_remaining := 0 }] : List ScheduleEntry).map
          (fun e => e.payment)).sum ∧
      (0 : ℚ) =
        (([{ month := 1, payment := 0, principal := 0, interest := 0, balance := 0, lakhs_remaining := 0 }] : List ScheduleEntry).map
          (fun e => e.interest)).sum ∧
      (0 : ℚ) - 0 = 0) ∧
    (fixed_total_payments 0 5 =
        (((fixed_full_schedule 0 0 0 5).map (fun e => e.payment)).sum) ∧
      fixed_total_interest 0 5 0 =
        (((fixed_full_schedule 0 0 0 5).map (fun e => e.interest)).sum) ∧
      fixed_total_payments 0 5 - fixed_total_interest 0 5 0 = 0) := by
  have h := totals_match_schedule_sums 0 1080 0 5 (by norm_num) (by norm_num)
    (by norm_num) (by norm_num)
  exact ⟨h.1 _ (declining_zero_principal_eq 1080 5 (by norm_num)),
    h.2 0 (by rw [monthly_payment_zero_principal 0 5 (by norm_num) (by norm_num)])⟩

end LeaseCalc
